import Mathlib

/-!
Shallow embedding of the `riprova` retry library (Python) in Lean 4.

The embedding follows the source files:
  * `riprova/errors.py`      — `ErrorWhitelist` / `ErrorBlacklist`
  * `riprova/backoff.py`     — the `Backoff.STOP` sentinel
  * `riprova/strategies/constant.py`    — `ConstantBackoff`
  * `riprova/strategies/exponential.py` — `ExponentialBackOff`
  * `riprova/retrier.py`     — the blocking `Retrier` engine
  * `riprova/async_retrier.py` — the asyncio-based `AsyncRetrier` engine

Python machine details are modelled as follows: numbers are `ℚ` (CPython
floats are modelled exactly by rationals on the inputs considered), `int()`
truncation is explicit, exception classes form a small closed hierarchy
with an explicit subclass relation, exception *objects* carry their class,
the value of `getattr(e, '__retry__', False) is False`, and an identity
tag so that "the same object is re-raised" is expressible.  Wall-clock
time and `random.random()` draws are passed in as explicit parameters.
-/

/-- Python exception classes appearing in the library, its defaults, and
user-defined error categories.  `userClass n` stands for an arbitrary
user exception class derived directly from `Exception`. -/
inductive ErrClass where
  | BaseExceptionC
  | ExceptionC
  | SystemExitC
  | KeyboardInterruptC
  | CancelledErrorC
  | IndexErrorC
  | ImportErrorC
  | SyntaxErrorC
  | ReferenceErrorC
  | RuntimeErrorC
  | ValueErrorC
  | AsyncioTimeoutErrorC
  | RetryErrorC
  | MaxRetriesExceededC
  | RetryTimeoutErrorC
  | NotRetriableErrorC
  | userClass (n : ℕ)
deriving DecidableEq, Repr

/-- The chain of ancestors of a class, itself included (method resolution
order restricted to the classes we model).  `SystemExit`,
`KeyboardInterrupt` and `asyncio.CancelledError` derive from
`BaseException` only; every other class derives from `Exception`.
`MaxRetriesExceeded` and `RetryTimeoutError` derive from `RetryError`
(`riprova/exceptions.py`). -/
def ErrClass.mro : ErrClass → List ErrClass
  | .BaseExceptionC => [.BaseExceptionC]
  | .ExceptionC => [.ExceptionC, .BaseExceptionC]
  | .SystemExitC => [.SystemExitC, .BaseExceptionC]
  | .KeyboardInterruptC => [.KeyboardInterruptC, .BaseExceptionC]
  | .CancelledErrorC => [.CancelledErrorC, .BaseExceptionC]
  | .IndexErrorC => [.IndexErrorC, .ExceptionC, .BaseExceptionC]
  | .ImportErrorC => [.ImportErrorC, .ExceptionC, .BaseExceptionC]
  | .SyntaxErrorC => [.SyntaxErrorC, .ExceptionC, .BaseExceptionC]
  | .ReferenceErrorC => [.ReferenceErrorC, .ExceptionC, .BaseExceptionC]
  | .RuntimeErrorC => [.RuntimeErrorC, .ExceptionC, .BaseExceptionC]
  | .ValueErrorC => [.ValueErrorC, .ExceptionC, .BaseExceptionC]
  | .AsyncioTimeoutErrorC => [.AsyncioTimeoutErrorC, .ExceptionC, .BaseExceptionC]
  | .RetryErrorC => [.RetryErrorC, .ExceptionC, .BaseExceptionC]
  | .MaxRetriesExceededC =>
      [.MaxRetriesExceededC, .RetryErrorC, .ExceptionC, .BaseExceptionC]
  | .RetryTimeoutErrorC =>
      [.RetryTimeoutErrorC, .RetryErrorC, .ExceptionC, .BaseExceptionC]
  | .NotRetriableErrorC => [.NotRetriableErrorC, .ExceptionC, .BaseExceptionC]
  | .userClass n => [.userClass n, .ExceptionC, .BaseExceptionC]

/-- Python `issubclass(c, d)` restricted to the modelled hierarchy. -/
def issubclassB (c d : ErrClass) : Bool := d ∈ c.mro

/-- A Python exception object: its class, whether
`getattr(e, '__retry__', False) is False` holds (`retryIsFalse`), and an
identity tag distinguishing objects of the same class. -/
structure PyErr where
  cls : ErrClass
  retryIsFalse : Bool
  eid : ℕ
deriving DecidableEq, Repr

/-- Python `isinstance(e, c)` for an exception object. -/
def isinstanceB (e : PyErr) (c : ErrClass) : Bool := issubclassB e.cls c

/-- A raised exception together with its `__cause__` (one level deep,
which is all the engine ever sets through `raise_from` / `raise ... from`). -/
structure ExcVal where
  err : PyErr
  cause : Option PyErr
deriving DecidableEq, Repr

/-- The Python values the engine inspects: `None`, ints, bools,
exception objects, strings. -/
inductive PyVal where
  | none
  | int (n : ℤ)
  | bool (b : Bool)
  | exc (e : PyErr)
  | str (s : String)
deriving DecidableEq, Repr

/-- Python truthiness of a `PyVal`. -/
def PyVal.truthy : PyVal → Bool
  | .none => false
  | .int n => n ≠ 0
  | .bool b => b
  | .exc _ => true
  | .str s => s ≠ ""

/-- Checks `isinstance(v, Exception)` and extracts the exception object. -/
def PyVal.asExc : PyVal → Option PyErr
  | .exc e => if issubclassB e.cls .ExceptionC then some e else .none
  | _ => .none

deriving instance DecidableEq for Except

/-- The built-in default whitelist set (`ErrorWhitelist.WHITELIST` in
`riprova/errors.py`). -/
def WHITELIST : Finset ErrClass :=
  { .SystemExitC, .IndexErrorC, .ImportErrorC, .SyntaxErrorC,
    .ReferenceErrorC, .KeyboardInterruptC, .NotRetriableErrorC }

/-- `ErrorWhitelist.isretry` from `riprova/errors.py`:
`not all([error is not None, any(isinstance(error, err) for err in self._list),
getattr(error, '__retry__', False) is False])`.  The first argument is the
instance's `_list`; `none` models passing `None` as the error. -/
def ErrorWhitelist.isretry (l : Finset ErrClass) : Option PyErr → Bool
  | .none => true
  | some e => !(decide (∃ c ∈ l, isinstanceB e c) && e.retryIsFalse)

/-- `ErrorBlacklist.isretry` from `riprova/errors.py`:
`not ErrorWhitelist.isretry(self, error)`. -/
def ErrorBlacklist.isretry (l : Finset ErrClass) (e : Option PyErr) : Bool :=
  !(ErrorWhitelist.isretry l e)

/-- An argument passed to `ErrorWhitelist.add` / the `errors` setter:
either an exception class, a class that is not a `BaseException` subclass
(e.g. `dict`), or a non-class object (`issubclass` raises `TypeError` on
it). -/
inductive PyObj where
  | cls (c : ErrClass)
  | otherCls (n : ℕ)
  | nonClass (n : ℕ)
deriving DecidableEq, Repr

/-- Whether the `errors` setter accepts the object: it must be a class
and `issubclass(err, BaseException)` must hold (every modelled `ErrClass`
has `BaseException` in its mro). -/
def PyObj.isErrCls : PyObj → Bool
  | .cls _ => true
  | .otherCls _ => false
  | .nonClass _ => false

/-- The classes named by a list of setter arguments, in `Finset` form. -/
def PyObj.classesOf (args : List PyObj) : Finset ErrClass :=
  (args.filterMap fun x => match x with
    | .cls c => some c
    | _ => none).toFinset

/-- The loop body of the `errors` setter in `riprova/errors.py`: starting
from `self._list = set()`, validated classes are added one by one; the
first invalid entry raises `TypeError` (returned flag `true`), leaving
the entries added so far in `_list`. -/
def errorsSetterLoop : List PyObj → Finset ErrClass → Finset ErrClass × Bool
  | [], acc => (acc, false)
  | x :: xs, acc =>
    match x with
    | .cls c => errorsSetterLoop xs (insert c acc)
    | _ => (acc, true)

/-- The `errors` property setter applied to a tuple of arguments (the
`isinstance(errors, (list, tuple))` guard always passes for the tuple
`add` forwards).  Returns the resulting `_list` and whether `TypeError`
was raised. -/
def errorsSetter (args : List PyObj) : Finset ErrClass × Bool :=
  errorsSetterLoop args ∅

/-- `ErrorWhitelist.add` from `riprova/errors.py`: caches the current
`_list`, delegates to the `errors` setter (which replaces `_list`), and
only on success unions the cached copy back in.  Returns the final
`_list` and whether `TypeError` was raised. -/
def ErrorWhitelist.add (cur : Finset ErrClass) (args : List PyObj) :
    Finset ErrClass × Bool :=
  let saved := cur
  let res := errorsSetter args
  if res.2 then (res.1, true) else (saved ∪ res.1, false)

/-- `Backoff.STOP` from `riprova/backoff.py`. -/
def Backoff.STOP : ℚ := -1

/-- `ConstantBackoff` state (`riprova/strategies/constant.py`):
`retries`, `pending_retries` and `interval`.  The constructor asserts
both numbers are non-negative ints, hence `ℕ` for the counters; the
interval is kept as `ℚ` because the engine treats delays as numbers. -/
structure ConstantBackoff where
  retries : ℕ
  pending_retries : ℕ
  interval : ℚ
deriving DecidableEq, Repr

/-- `ConstantBackoff.__init__(interval, retries)`. -/
def ConstantBackoff.make (interval retries : ℕ) : ConstantBackoff :=
  ⟨retries, retries, (interval : ℚ)⟩

/-- `ConstantBackoff.reset`: `self.pending_retries = self.retries`. -/
def ConstantBackoff.reset (s : ConstantBackoff) : ConstantBackoff :=
  { s with pending_retries := s.retries }

/-- `ConstantBackoff.next`: returns `Backoff.STOP` once the budget is
exhausted (`retries > 0 and pending_retries == 0`), otherwise decrements
`pending_retries` when a finite budget is configured and returns the
interval. -/
def ConstantBackoff.next (s : ConstantBackoff) : ConstantBackoff × ℚ :=
  if s.retries > 0 ∧ s.pending_retries = 0 then (s, Backoff.STOP)
  else if s.retries > 0 then
    ({ s with pending_retries := s.pending_retries - 1 }, s.interval)
  else (s, s.interval)

/-- Runs `n` successive `next()` calls, collecting the returned delays. -/
def ConstantBackoff.runCalls (s : ConstantBackoff) : ℕ → ConstantBackoff × List ℚ
  | 0 => (s, [])
  | n + 1 =>
    let r := s.next
    let rest := ConstantBackoff.runCalls r.1 n
    (rest.1, r.2 :: rest.2)

/-- Python `int()` applied to a rational: truncation toward zero. -/
def pyInt (x : ℚ) : ℤ := if 0 ≤ x then ⌊x⌋ else ⌈x⌉

/-- `ExponentialBackOff` state (`riprova/strategies/exponential.py`).
`started` is the stored start timestamp in milliseconds (`None` before
the first `next()` call). -/
structure ExponentialBackOff where
  started : Option ℚ
  multiplier : ℚ
  max_elapsed : ℚ
  max_interval : ℚ
  factor : ℚ
  interval : ℚ
  current_interval : ℚ
deriving DecidableEq, Repr

/-- Python `max(a, b)` on numbers: returns `a` unless `a < b`. -/
def pyMax (a b : ℚ) : ℚ := if a < b then b else a

/-- Python `min(a, b)` on numbers: returns `a` unless `b < a`. -/
def pyMin (a b : ℚ) : ℚ := if b < a then b else a

/-- `ExponentialBackOff.__init__`: stores the parameters, clamping
`factor` into `[0, 1]` via `min(max(factor, 0), 1)`. -/
def ExponentialBackOff.make (interval factor max_interval max_elapsed
    multiplier : ℚ) : ExponentialBackOff :=
  ⟨none, multiplier, max_elapsed, max_interval,
    pyMin (pyMax factor 0) 1, interval, interval⟩

/-- `ExponentialBackOff` constructed with the source's default arguments
(`interval=500, factor=0.5, max_interval=6000, max_elapsed=15*60*1000,
multiplier=1.5`), except for the overridable `interval`. -/
def ExponentialBackOff.defaults (interval : ℚ) : ExponentialBackOff :=
  ExponentialBackOff.make interval (1/2) 6000 (15 * 60 * 1000) (3/2)

/-- `ExponentialBackOff._get_random_value`: `rand` is the value of the
single `random.random()` draw; `delta = self.factor * rand`; the result
is `int(min_interval + (rand * (max_interval - min_interval + 1)))`. -/
def ExponentialBackOff.getRandomValue (s : ExponentialBackOff) (rand : ℚ) : ℤ :=
  let delta := s.factor * rand
  let min_interval := s.current_interval - delta
  let max_interval := s.current_interval + delta
  pyInt (min_interval + rand * (max_interval - min_interval + 1))

/-- `ExponentialBackOff._increment_interval`: multiplies
`current_interval` by `multiplier`, clamping to `max_interval` on
overflow (assumes `multiplier > 0`, which the paths we verify satisfy). -/
def ExponentialBackOff.incrementInterval (s : ExponentialBackOff) :
    ExponentialBackOff :=
  if s.current_interval ≥ s.max_interval / s.multiplier then
    { s with current_interval := s.max_interval }
  else
    { s with current_interval := s.current_interval * s.multiplier }

/-- `ExponentialBackOff.next`: `tnow` is the value of `now()` for this
call and `rand` the `random.random()` draw.  Stores the start time on
first use, returns `Backoff.STOP` once `max_elapsed` (when non-zero) is
exceeded, and otherwise returns the randomized interval and grows
`current_interval`. -/
def ExponentialBackOff.next (s : ExponentialBackOff) (tnow rand : ℚ) :
    ExponentialBackOff × ℚ :=
  let s1 := if s.started = none then { s with started := some tnow } else s
  if s1.max_elapsed ≠ 0 ∧ tnow - s1.started.getD 0 > s1.max_elapsed then
    (s1, Backoff.STOP)
  else
    let v := s1.getRandomValue rand
    (s1.incrementInterval, (v : ℚ))

/-- `ExponentialBackOff.reset`: clears the timer and restores
`current_interval` to the configured `interval`. -/
def ExponentialBackOff.reset (s : ExponentialBackOff) : ExponentialBackOff :=
  { s with started := none, current_interval := s.interval }

/-- Dedicated exception objects created by the engine
(`riprova/retrier.py`, `riprova/async_retrier.py`).  None of them defines
`__retry__`, so `getattr(e, '__retry__', False) is False` holds. -/
def retryEvalTrueError : PyErr := ⟨.RetryErrorC, true, 1000⟩

/-- The `RetryError('retry loop error')` cause object from `Retrier._call`. -/
def retryLoopError : PyErr := ⟨.RetryErrorC, true, 1001⟩

/-- The `MaxRetriesExceeded('max retries exceeded')` object. -/
def maxRetriesError : PyErr := ⟨.MaxRetriesExceededC, true, 1002⟩

/-- The `RetryTimeoutError('max timeout exceeded while retrying task')`
object from `Retrier._timeout_error`. -/
def retryTimeoutErrorObj : PyErr := ⟨.RetryTimeoutErrorC, true, 1003⟩

/-- The `RuntimeError('evaluator assertion returned True')` object from
`AsyncRetrier._call`. -/
def evalTrueRuntimeError : PyErr := ⟨.RuntimeErrorC, true, 1004⟩

/-- The `asyncio.TimeoutError` raised by `asyncio.wait_for` on deadline. -/
def asyncioTimeoutErrObj : PyErr := ⟨.AsyncioTimeoutErrorC, true, 1005⟩

/-- The instantiated `RetryError` cause in `AsyncRetrier._call`'s
`raise err from RetryError`. -/
def asyncRetryLoopCause : PyErr := ⟨.RetryErrorC, true, 1006⟩

/-- Engine configuration, fixed at construction (`Retrier.__init__`):
`timeout` (`0` meaning no limit, as `timeout or 0` normalizes), the
optional result `evaluator` (which may itself raise), the
`error_evaluator` (defaulting to the whitelist check, hence always set),
the optional `on_retry` subscriber (which may raise), and the backoff
strategy given by its `next`/`reset` methods over state `σ`. -/
structure RetrierCfg (σ : Type) where
  timeout : ℚ
  evaluator : Option (PyVal → Except PyErr PyVal)
  error_evaluator : PyErr → PyVal
  on_retry : Option (Option PyErr → ℚ → Except PyErr Unit)
  next : σ → σ × ℚ
  reset : σ → σ

/-- The default `error_evaluator`: `Retrier.is_whitelisted_error`, i.e.
`self.whitelist.isretry(err)` against the instance's whitelist set. -/
def defaultErrorEvaluator (l : Finset ErrClass) : PyErr → PyVal :=
  fun e => .bool (ErrorWhitelist.isretry l (some e))

/-- Mutable per-run engine state: `attempts`, `error`, the backoff
instance's state, and a ghost counter of result-evaluator invocations
(incremented exactly where the Python code calls `self.evaluator(res)`),
used to express that the evaluator is never invoked. -/
structure RunState (σ : Type) where
  attempts : ℕ
  error : Option PyErr
  evalCalls : ℕ
  backoff : σ
deriving DecidableEq, Repr

/-- Result of `Retrier._call`: a normal return or a raised exception. -/
inductive CallResult where
  | ret (v : PyVal)
  | exn (e : ExcVal)
deriving DecidableEq, Repr

/-- Outcome of a whole `run()`: the returned value or the exception
propagated to the caller. -/
inductive RunOutcome where
  | success (v : PyVal)
  | raised (e : ExcVal)
deriving DecidableEq, Repr

/-- `Retrier.istimeout`: `False` when no timeout is configured, otherwise
`time.time() - start > self.timeout > 0` (Python chained comparison). -/
def Retrier.istimeout (timeout start tnow : ℚ) : Bool :=
  if timeout = 0 then false else (tnow - start > timeout && timeout > 0)

/-- `Retrier._call` on one operation outcome `opres` (the operation `fn`
either returns a value or raises).  Mirrors the branch order of the
source: an operation exception propagates; with no evaluator or a `None`
result the error field is cleared and the value returned; otherwise the
evaluator runs (ghost-counted); a falsy verdict clears the error and
returns the value; an `Exception` verdict is recorded and raised with the
`RetryError('retry loop error')` cause; the literal `True` verdict raises
`RetryError('retry evaluator assertion returned True')` with the previous
`self.error` as cause; any other verdict is returned as the result. -/
def Retrier.call (cfg : RetrierCfg σ) (st : RunState σ)
    (opres : Except PyErr PyVal) : RunState σ × CallResult :=
  match opres with
  | .error e => (st, .exn ⟨e, none⟩)
  | .ok res =>
    match cfg.evaluator with
    | none => ({ st with error := none }, .ret res)
    | some ev =>
      if res = .none then ({ st with error := none }, .ret res)
      else
        let st := { st with evalCalls := st.evalCalls + 1 }
        match ev res with
        | .error e => (st, .exn ⟨e, none⟩)
        | .ok errv =>
          if errv.truthy = false then ({ st with error := none }, .ret res)
          else
            match errv.asExc with
            | some e => ({ st with error := some e }, .exn ⟨e, some retryLoopError⟩)
            | none =>
              if errv = .bool true then (st, .exn ⟨retryEvalTrueError, st.error⟩)
              else (st, .ret errv)

/-- `Retrier._handle_error`: records the error, consults the
`error_evaluator`; a truthy `Exception` verdict is raised with the
recorded error as cause; the literal `False` verdict re-raises the
original exception object unchanged; anything else lets the loop retry. -/
def Retrier.handleError (cfg : RetrierCfg σ) (st : RunState σ)
    (exc : ExcVal) : RunState σ × Option ExcVal :=
  let st := { st with error := some exc.err }
  let retry := cfg.error_evaluator exc.err
  match retry.asExc with
  | some e => if retry.truthy then (st, some ⟨e, st.error⟩) else (st, none)
  | none =>
    if retry = .bool false then (st, some exc)
    else (st, none)

/-- `Retrier._get_delay`: asks the backoff for the next delay; on
`Backoff.STOP` raises `MaxRetriesExceeded` chaining the recorded error. -/
def Retrier.getDelay (cfg : RetrierCfg σ) (st : RunState σ) :
    RunState σ × Except ExcVal ℚ :=
  let r := cfg.next st.backoff
  let st := { st with backoff := r.1 }
  if r.2 = Backoff.STOP then (st, .error ⟨maxRetriesError, st.error⟩)
  else (st, .ok r.2)

/-- `Retrier._notify_subscriber`: calls `on_retry(self.error, delay)`
when configured; an exception it raises propagates. -/
def Retrier.notifySubscriber (cfg : RetrierCfg σ) (st : RunState σ)
    (delay : ℚ) : Option PyErr :=
  match cfg.on_retry with
  | none => none
  | some f => match f st.error delay with
    | .ok _ => none
    | .error e => some e

/-- The `while True` loop of `Retrier.run`.  `op i` is the outcome of the
`i`-th invocation of the operation, `times i` the `time.time()` reading
at the top of iteration `i`, `start` the reading taken at run start.
`fuel` bounds the number of iterations modelled (`none` = fuel ran out,
the loop would go on).  Exceptions not derived from `Exception`
(e.g. `KeyboardInterrupt`) escape the `except Exception` clause. -/
def Retrier.runLoop (cfg : RetrierCfg σ) (op : ℕ → Except PyErr PyVal)
    (times : ℕ → ℚ) (start : ℚ) :
    RunState σ → ℕ → ℕ → Option (RunOutcome × RunState σ)
  | _, _, 0 => none
  | st, i, fuel + 1 =>
    if Retrier.istimeout cfg.timeout start (times i) then
      some (.raised ⟨retryTimeoutErrorObj, st.error⟩, st)
    else
      match Retrier.call cfg st (op i) with
      | (st, .ret v) => some (.success v, st)
      | (st, .exn exc) =>
        if issubclassB exc.err.cls .ExceptionC = false then
          some (.raised exc, st)
        else
          match Retrier.handleError cfg st exc with
          | (st, some exc') => some (.raised exc', st)
          | (st, none) =>
            match Retrier.getDelay cfg st with
            | (st, .error exc') => some (.raised exc', st)
            | (st, .ok delay) =>
              match Retrier.notifySubscriber cfg st delay with
              | some e => some (.raised ⟨e, none⟩, st)
              | none =>
                Retrier.runLoop cfg op times start
                  { st with attempts := st.attempts + 1 } (i + 1) fuel

/-- `Retrier.run`: resets `error`, `attempts` and the backoff strategy,
then enters the retry loop. -/
def Retrier.run (cfg : RetrierCfg σ) (b0 : σ) (op : ℕ → Except PyErr PyVal)
    (times : ℕ → ℚ) (start : ℚ) (fuel : ℕ) :
    Option (RunOutcome × RunState σ) :=
  Retrier.runLoop cfg op times start ⟨0, none, 0, cfg.reset b0⟩ 0 fuel

/-- `AsyncRetrier._call` (`riprova/async_retrier.py`): same structure as
the blocking `_call` except that an `Exception` verdict is raised via
`raise err from RetryError` (an instantiated `RetryError` cause) and the
literal `True` verdict raises a plain
`RuntimeError('evaluator assertion returned True')` with no cause. -/
def AsyncRetrier.call (cfg : RetrierCfg σ) (st : RunState σ)
    (opres : Except PyErr PyVal) : RunState σ × CallResult :=
  match opres with
  | .error e => (st, .exn ⟨e, none⟩)
  | .ok res =>
    match cfg.evaluator with
    | none => ({ st with error := none }, .ret res)
    | some ev =>
      if res = .none then ({ st with error := none }, .ret res)
      else
        let st := { st with evalCalls := st.evalCalls + 1 }
        match ev res with
        | .error e => (st, .exn ⟨e, none⟩)
        | .ok errv =>
          if errv.truthy = false then ({ st with error := none }, .ret res)
          else
            match errv.asExc with
            | some e =>
              ({ st with error := some e }, .exn ⟨e, some asyncRetryLoopCause⟩)
            | none =>
              if errv = .bool true then (st, .exn ⟨evalTrueRuntimeError, none⟩)
              else (st, .ret errv)

/-- `AsyncRetrier._handle_error`: records the error and consults the
`error_evaluator` exactly as the blocking engine does, but also performs
the backoff/notify/sleep steps itself: on `Backoff.STOP` it raises
`MaxRetriesExceeded('max retries exceeded') from err`.  Returns the
updated state and `some exc` when an exception propagates. -/
def AsyncRetrier.handleError (cfg : RetrierCfg σ) (st : RunState σ)
    (exc : ExcVal) : RunState σ × Option ExcVal :=
  let st := { st with error := some exc.err }
  let retry := cfg.error_evaluator exc.err
  match retry.asExc with
  | some e => (st, some ⟨e, st.error⟩)
  | none =>
    if retry = .bool false then (st, some exc)
    else
      let r := cfg.next st.backoff
      let st := { st with backoff := r.1 }
      if r.2 = Backoff.STOP then (st, some ⟨maxRetriesError, some exc.err⟩)
      else
        match Retrier.notifySubscriber cfg st r.2 with
        | some e => (st, some ⟨e, none⟩)
        | none => (st, none)

/-- The `while True` loop of `AsyncRetrier._run`: a `CancelledError`
raised by the operation is stored, `attempts` is incremented and it is
re-raised; any other `Exception` goes through `_handle_error`, after
which `attempts` is incremented and the loop continues; exceptions not
derived from `Exception` escape. -/
def AsyncRetrier.runLoop (cfg : RetrierCfg σ) (op : ℕ → Except PyErr PyVal) :
    RunState σ → ℕ → ℕ → Option (RunOutcome × RunState σ)
  | _, _, 0 => none
  | st, i, fuel + 1 =>
    match AsyncRetrier.call cfg st (op i) with
    | (st, .ret v) => some (.success v, st)
    | (st, .exn exc) =>
      if issubclassB exc.err.cls .CancelledErrorC then
        some (.raised exc, { st with attempts := st.attempts + 1 })
      else if issubclassB exc.err.cls .ExceptionC then
        match AsyncRetrier.handleError cfg st exc with
        | (st, some exc') => some (.raised exc', st)
        | (st, none) =>
          AsyncRetrier.runLoop cfg op
            { st with attempts := st.attempts + 1 } (i + 1) fuel
      else some (.raised exc, st)

/-- `AsyncRetrier.run` without the `asyncio.wait_for` wrapper: resets the
backoff strategy and the `error`/`attempts` state, then runs `_run`. -/
def AsyncRetrier.runInner (cfg : RetrierCfg σ) (b0 : σ)
    (op : ℕ → Except PyErr PyVal) (fuel : ℕ) :
    Option (RunOutcome × RunState σ) :=
  AsyncRetrier.runLoop cfg op ⟨0, none, 0, cfg.reset b0⟩ 0 fuel

/-- `AsyncRetrier.run`: the inner loop is wrapped in
`asyncio.wait_for(self._run(...), self.timeout)`.  Modelled from the
documented behaviour of the standard-library `asyncio.wait_for` (outside
this repository): when the deadline elapses first (`timedOut`), the inner
task is cancelled and a bare `asyncio.TimeoutError` is raised to the
caller; otherwise the inner outcome is forwarded. -/
def AsyncRetrier.runOutcome (cfg : RetrierCfg σ) (b0 : σ)
    (op : ℕ → Except PyErr PyVal) (fuel : ℕ) (timedOut : Bool) :
    Option RunOutcome :=
  if timedOut then some (.raised ⟨asyncioTimeoutErrObj, none⟩)
  else (AsyncRetrier.runInner cfg b0 op fuel).map Prod.fst

/-- The configuration of a `Retrier`/`AsyncRetrier` constructed with a
`ConstantBackoff` and otherwise default arguments: no result evaluator,
no `on_retry` subscriber, and the default whitelist-based
`error_evaluator` over a fresh `ErrorWhitelist()`. -/
def Retrier.defaultCfg (timeout : ℚ) : RetrierCfg ConstantBackoff :=
  ⟨timeout, none, defaultErrorEvaluator WHITELIST, none,
    ConstantBackoff.next, ConstantBackoff.reset⟩

/-- A generic user-defined retryable error object, used for concrete
witness scenarios: an instance of a user exception class with no
`__retry__` attribute. -/
def userErr (i : ℕ) : PyErr := ⟨.userClass 0, true, i⟩

lemma constantBackoff_runCalls_succ (s : ConstantBackoff) (n : ℕ) :
    ConstantBackoff.runCalls s (n + 1)
      = ((ConstantBackoff.runCalls s.next.1 n).1,
         s.next.2 :: (ConstantBackoff.runCalls s.next.1 n).2) := rfl

lemma constantBackoff_runCalls_exhaust (iv : ℚ) (r : ℕ) (hr : 0 < r) :
    ∀ p : ℕ, ConstantBackoff.runCalls ⟨r, p, iv⟩ (p + 1)
      = (⟨r, 0, iv⟩, List.replicate p iv ++ [Backoff.STOP]) := by
  intro p
  induction p with
  | zero =>
    simp [ConstantBackoff.runCalls, ConstantBackoff.next, hr]
  | succ p ih =>
    have hnext : ConstantBackoff.next ⟨r, p + 1, iv⟩ = (⟨r, p, iv⟩, iv) := by
      simp [ConstantBackoff.next, hr]
    rw [constantBackoff_runCalls_succ, hnext, ih]
    simp [List.replicate_succ]

/-- C8: for `ConstantBackoff(interval=i, retries=r)` with `r > 0`, the
first `r` calls to `next()` each return `i`, the `(r+1)`-th call returns
`Backoff.STOP`, and after `reset()` of any instance configured with the
same `retries`/`interval` the same sequence of `r` returns of `i`
followed by `STOP` repeats. -/
theorem constantBackoff_budget_and_reset (interval r : ℕ) (hr : 0 < r) :
    (ConstantBackoff.runCalls (ConstantBackoff.make interval r) (r + 1)).2
      = List.replicate r (interval : ℚ) ++ [Backoff.STOP]
    ∧ ∀ s : ConstantBackoff, s.retries = r → s.interval = (interval : ℚ) →
        (ConstantBackoff.runCalls s.reset (r + 1)).2
          = List.replicate r (interval : ℚ) ++ [Backoff.STOP] := by
  constructor
  · rw [show ConstantBackoff.make interval r = ⟨r, r, (interval : ℚ)⟩ from rfl,
      constantBackoff_runCalls_exhaust (interval : ℚ) r hr r]
  · intro s hret hint
    have hres : s.reset = ⟨r, r, (interval : ℚ)⟩ := by
      simp [ConstantBackoff.reset, hret, hint]
    rw [hres, constantBackoff_runCalls_exhaust (interval : ℚ) r hr r]

/-- Closed witness for `constantBackoff_budget_and_reset` at
`interval = 7`, `retries = 3`. -/
theorem constantBackoff_budget_and_reset_witness :
    (ConstantBackoff.runCalls (ConstantBackoff.make 7 3) (3 + 1)).2
      = List.replicate 3 ((7 : ℕ) : ℚ) ++ [Backoff.STOP] :=
  (constantBackoff_budget_and_reset 7 3 (by decide)).1

/-- C6: `ErrorBlacklist.isretry` is the pointwise logical negation of
`ErrorWhitelist.isretry` over the same configured error set, for every
error value (including `None`), exactly as `riprova/errors.py` defines
it. -/
theorem errorBlacklist_isretry_negates_whitelist :
    ∀ (l : Finset ErrClass) (e : Option PyErr),
      ErrorBlacklist.isretry l e = !(ErrorWhitelist.isretry l e) := by
  intro l e
  cases e <;> rfl


lemma errorsSetterLoop_spec (args : List PyObj) :
    ∀ acc : Finset ErrClass,
      ((errorsSetterLoop args acc).2 = true ↔ ∃ x ∈ args, x.isErrCls = false)
      ∧ ((errorsSetterLoop args acc).2 = false →
          (errorsSetterLoop args acc).1 = acc ∪ PyObj.classesOf args) := by
  induction args with
  | nil =>
    intro acc
    simp [errorsSetterLoop, PyObj.classesOf]
  | cons x xs ih =>
    intro acc
    cases x with
    | cls c =>
      constructor
      · rw [show errorsSetterLoop (.cls c :: xs) acc
            = errorsSetterLoop xs (insert c acc) from rfl]
        rw [(ih (insert c acc)).1]
        simp [PyObj.isErrCls]
      · intro hok
        rw [show errorsSetterLoop (.cls c :: xs) acc
            = errorsSetterLoop xs (insert c acc) from rfl] at hok ⊢
        rw [(ih (insert c acc)).2 hok]
        simp [PyObj.classesOf, List.filterMap_cons, List.toFinset_cons,
          Finset.insert_union, Finset.union_insert]
    | otherCls n =>
      refine ⟨?_, ?_⟩
      · simp [errorsSetterLoop, PyObj.isErrCls]
      · intro hok
        simp [errorsSetterLoop] at hok
    | nonClass n =>
      refine ⟨?_, ?_⟩
      · simp [errorsSetterLoop, PyObj.isErrCls]
      · intro hok
        simp [errorsSetterLoop] at hok

/-- C9 (amended): `add(*errors)` validates each argument, raising
`TypeError` exactly when some argument is not an error class; on a
successful call the instance's set becomes the union of the previous set
and the argument classes, so previously-present entries are preserved.
However, a call whose validation fails leaves the set replaced by the
already-validated prefix of the new arguments, so prior entries are lost
in that case (see the counterexample). -/
theorem errorWhitelist_add_amended (cur : Finset ErrClass) (args : List PyObj) :
    ((ErrorWhitelist.add cur args).2 = true ↔ ∃ x ∈ args, x.isErrCls = false)
    ∧ ((ErrorWhitelist.add cur args).2 = false →
        (ErrorWhitelist.add cur args).1 = cur ∪ PyObj.classesOf args)
    ∧ ((ErrorWhitelist.add cur args).2 = false →
        cur ⊆ (ErrorWhitelist.add cur args).1) := by
  have h := errorsSetterLoop_spec args ∅
  simp only [ErrorWhitelist.add, errorsSetter]
  by_cases hraise : (errorsSetterLoop args ∅).2 = true
  · rw [if_pos hraise]
    refine ⟨by simpa [hraise] using h.1, ?_, ?_⟩ <;> simp
  · rw [Bool.not_eq_true] at hraise
    rw [if_neg (by simp [hraise])]
    have h1 : (errorsSetterLoop args ∅).1 = ∅ ∪ PyObj.classesOf args :=
      h.2 hraise
    refine ⟨?_, ?_, ?_⟩
    · simpa [hraise] using h.1
    · intro _
      simp only [h1, Finset.empty_union]
    · intro _
      rw [h1, Finset.empty_union]
      exact Finset.subset_union_left

/-- Closed witness for `errorWhitelist_add_amended`: adding a valid user
class to `{ImportError}` succeeds and unions it in, preserving the prior
entry. -/
theorem errorWhitelist_add_amended_witness :
    (ErrorWhitelist.add {ErrClass.ImportErrorC} [PyObj.cls (.userClass 0)]).1
      = ({ErrClass.ImportErrorC} : Finset ErrClass)
          ∪ PyObj.classesOf [PyObj.cls (.userClass 0)] :=
  (errorWhitelist_add_amended {ErrClass.ImportErrorC}
    [PyObj.cls (.userClass 0)]).2.1 (by decide)

/-- C9 counterexample: on `ErrorWhitelist({ImportError})`, the call
`add(UserError, 42)` raises `TypeError` and afterwards the whitelist no
longer contains `ImportError` — the previously-present entries are lost
by a call whose validation fails, contradicting the claim. -/
theorem errorWhitelist_add_counterexample :
    (ErrorWhitelist.add {ErrClass.ImportErrorC}
        [PyObj.cls (.userClass 0), PyObj.nonClass 0]).2 = true
    ∧ ErrClass.ImportErrorC ∉
        (ErrorWhitelist.add {ErrClass.ImportErrorC}
          [PyObj.cls (.userClass 0), PyObj.nonClass 0]).1 := by decide

lemma pyInt_nonneg_bounds (x : ℚ) (hx : 0 ≤ x) :
    x - 1 < (pyInt x : ℚ) ∧ (pyInt x : ℚ) ≤ x := by
  unfold pyInt
  rw [if_pos hx]
  exact ⟨Int.sub_one_lt_floor x, Int.floor_le x⟩

lemma jitterFormula_bounds (ci f r : ℚ)
    (hci : 0 ≤ ci) (hf0 : 0 ≤ f) (hf1 : f ≤ 1) (hr0 : 0 ≤ r) (hr1 : r < 1) :
    ci - f * r - 1
      < (pyInt ((ci - f * r) + r * ((ci + f * r) - (ci - f * r) + 1)) : ℚ)
    ∧ (pyInt ((ci - f * r) + r * ((ci + f * r) - (ci - f * r) + 1)) : ℚ)
      < ci + f * r + 1 := by
  set x := (ci - f * r) + r * ((ci + f * r) - (ci - f * r) + 1) with hxdef
  have hsplit : x = ci + r * (1 - f) + 2 * f * r * r := by
    rw [hxdef]; ring
  have hx : 0 ≤ x := by
    rw [hsplit]
    have h1 : 0 ≤ r * (1 - f) := mul_nonneg hr0 (by linarith)
    have h2 : 0 ≤ 2 * f * r * r := by
      have := mul_nonneg (mul_nonneg (by linarith : (0:ℚ) ≤ 2 * f) hr0) hr0
      linarith [this]
    linarith
  obtain ⟨hlo, hhi⟩ := pyInt_nonneg_bounds x hx
  have hge : ci - f * r ≤ x := by
    have hdiff : x - (ci - f * r) = r * (2 * f * r + 1) := by rw [hxdef]; ring
    have h1 : 0 ≤ r * (2 * f * r + 1) := by
      have h2 : 0 ≤ 2 * f * r := mul_nonneg (by linarith) hr0
      exact mul_nonneg hr0 (by linarith)
    linarith
  have hlt : x < ci + f * r + 1 := by
    have hdiff : x - (ci + f * r) = r + 2 * f * r * (r - 1) := by rw [hxdef]; ring
    have h1 : 2 * f * r * (r - 1) ≤ 0 :=
      mul_nonpos_of_nonneg_of_nonpos
        (mul_nonneg (by linarith : (0:ℚ) ≤ 2 * f) hr0) (by linarith)
    linarith
  exact ⟨by linarith, by linarith⟩

lemma getRandomValue_eq_formula (s : ExponentialBackOff) (rand : ℚ) :
    s.getRandomValue rand
      = pyInt ((s.current_interval - s.factor * rand)
          + rand * ((s.current_interval + s.factor * rand)
              - (s.current_interval - s.factor * rand) + 1)) := rfl

/-- C7 (amended): for the exponential strategy at current interval `ci`
and clamped factor `f`, for every random draw `rand ∈ [0, 1)`, the delay
returned by `next()` (when the `max_elapsed` stop test does not fire)
lies strictly within `(ci - f*rand - 1, ci + f*rand + 1)`: the jitter
radius computed by `_get_random_value` is `factor * rand` — independent
of `ci`, unlike the claimed `factor * ci * rand` — and the
`int(min + rand * (max - min + 1))` formula can push the result up to
one unit past the jitter radius. -/
theorem exponential_next_band_amended (s : ExponentialBackOff) (tnow rand : ℚ)
    (hci : 0 ≤ s.current_interval) (hf0 : 0 ≤ s.factor) (hf1 : s.factor ≤ 1)
    (hr0 : 0 ≤ rand) (hr1 : rand < 1)
    (hel : ¬(s.max_elapsed ≠ 0 ∧ tnow - s.started.getD tnow > s.max_elapsed)) :
    s.current_interval - s.factor * rand - 1 < (s.next tnow rand).2
    ∧ (s.next tnow rand).2 < s.current_interval + s.factor * rand + 1 := by
  unfold ExponentialBackOff.next
  set s1 := (if s.started = none then { s with started := some tnow } else s)
    with hs1
  have hfields : s1.current_interval = s.current_interval
      ∧ s1.factor = s.factor ∧ s1.max_elapsed = s.max_elapsed := by
    rw [hs1]; split <;> exact ⟨rfl, rfl, rfl⟩
  have hstarted : s1.started.getD 0 = s.started.getD tnow := by
    rw [hs1]
    rcases hopt : s.started with _ | t0
    · simp [hopt]
    · simp [hopt]
  have hcond : ¬(s1.max_elapsed ≠ 0 ∧ tnow - s1.started.getD 0 > s1.max_elapsed) := by
    rw [hfields.2.2, hstarted]; exact hel
  rw [if_neg hcond]
  have h := jitterFormula_bounds s.current_interval s.factor rand
    hci hf0 hf1 hr0 hr1
  rw [getRandomValue_eq_formula, hfields.1, hfields.2.1]
  exact ⟨h.1, h.2⟩

/-- Closed witness for `exponential_next_band_amended`:
`ExponentialBackOff(interval=500, factor=1, multiplier=2)` at its first
`next()` call with `tnow = 0` and the draw `rand = 0`. -/
theorem exponential_next_band_amended_witness :
    (ExponentialBackOff.make 500 1 6000 900000 2).current_interval
        - (ExponentialBackOff.make 500 1 6000 900000 2).factor * 0 - 1
      < ((ExponentialBackOff.make 500 1 6000 900000 2).next 0 0).2
    ∧ ((ExponentialBackOff.make 500 1 6000 900000 2).next 0 0).2
      < (ExponentialBackOff.make 500 1 6000 900000 2).current_interval
          + (ExponentialBackOff.make 500 1 6000 900000 2).factor * 0 + 1 :=
  exponential_next_band_amended (ExponentialBackOff.make 500 1 6000 900000 2)
    0 0
    (by norm_num [ExponentialBackOff.make])
    (by norm_num [ExponentialBackOff.make, pyMin, pyMax])
    (by norm_num [ExponentialBackOff.make, pyMin, pyMax])
    (by norm_num) (by norm_num)
    (by norm_num [ExponentialBackOff.make])

/-- C7 counterexample: for `ExponentialBackOff(interval=0, factor=1,
multiplier=2)` at its first call (`current_interval = 0`, clamped
`factor = 1`) with the draw `rand = 3/4`, `next()` returns `1`, which
lies outside the claimed band
`[ci - f*ci, ci + f*ci] = [0, 0]`. -/
theorem exponential_next_band_counterexample :
    ((ExponentialBackOff.make 0 1 6000 900000 2).next 0 (3/4)).2 = 1
    ∧ (ExponentialBackOff.make 0 1 6000 900000 2).current_interval = 0
    ∧ (ExponentialBackOff.make 0 1 6000 900000 2).factor = 1
    ∧ ¬((ExponentialBackOff.make 0 1 6000 900000 2).current_interval
          - (ExponentialBackOff.make 0 1 6000 900000 2).factor
            * (ExponentialBackOff.make 0 1 6000 900000 2).current_interval
        ≤ ((ExponentialBackOff.make 0 1 6000 900000 2).next 0 (3/4)).2
      ∧ ((ExponentialBackOff.make 0 1 6000 900000 2).next 0 (3/4)).2
        ≤ (ExponentialBackOff.make 0 1 6000 900000 2).current_interval
            + (ExponentialBackOff.make 0 1 6000 900000 2).factor
              * (ExponentialBackOff.make 0 1 6000 900000 2).current_interval) := by
  have hmk : ExponentialBackOff.make 0 1 6000 900000 2
      = ⟨none, 2, 900000, 6000, 1, 0, 0⟩ := by
    norm_num [ExponentialBackOff.make, pyMin, pyMax]
  have hval : ((ExponentialBackOff.make 0 1 6000 900000 2).next 0 (3/4)).2 = 1 := by
    rw [hmk]
    unfold ExponentialBackOff.next ExponentialBackOff.getRandomValue
    norm_num
    unfold pyInt
    rw [if_pos (by norm_num)]
    rw [Int.floor_eq_iff]
    norm_num
  refine ⟨hval, by rw [hmk], by rw [hmk], ?_⟩
  intro hband
  rw [hval, hmk] at hband
  norm_num at hband

lemma defaultCfg_timeout (t : ℚ) : (Retrier.defaultCfg t).timeout = t := rfl

lemma defaultCfg_evaluator (t : ℚ) :
    (Retrier.defaultCfg t).evaluator = none := rfl

lemma defaultCfg_error_evaluator (t : ℚ) :
    (Retrier.defaultCfg t).error_evaluator = defaultErrorEvaluator WHITELIST := rfl

lemma defaultCfg_on_retry (t : ℚ) :
    (Retrier.defaultCfg t).on_retry = none := rfl

lemma defaultCfg_next (t : ℚ) :
    (Retrier.defaultCfg t).next = ConstantBackoff.next := rfl

lemma runLoop_step_retry (t iv : ℚ) (op : ℕ → Except PyErr PyVal)
    (times : ℕ → ℚ) (start : ℚ) (er : PyErr)
    (a ec r p i n : ℕ) (err0 : Option PyErr)
    (hT : Retrier.istimeout t start (times i) = false)
    (hop : op i = .error er)
    (hexc : issubclassB er.cls .ExceptionC = true)
    (hretry : ErrorWhitelist.isretry WHITELIST (some er) = true)
    (hp : p ≠ 0) (hr : 0 < r) (hiv : iv ≠ Backoff.STOP) :
    Retrier.runLoop (Retrier.defaultCfg t) op times start
        ⟨a, err0, ec, ⟨r, p, iv⟩⟩ i (n + 1)
      = Retrier.runLoop (Retrier.defaultCfg t) op times start
          ⟨a + 1, some er, ec, ⟨r, p - 1, iv⟩⟩ (i + 1) n := by
  have hcall : Retrier.call (Retrier.defaultCfg t)
      ⟨a, err0, ec, ⟨r, p, iv⟩⟩ (op i)
      = (⟨a, err0, ec, ⟨r, p, iv⟩⟩, .exn ⟨er, none⟩) := by
    rw [hop]; rfl
  have hhandle : Retrier.handleError (Retrier.defaultCfg t)
      ⟨a, err0, ec, ⟨r, p, iv⟩⟩ ⟨er, none⟩
      = (⟨a, some er, ec, ⟨r, p, iv⟩⟩, none) := by
    unfold Retrier.handleError
    rw [defaultCfg_error_evaluator]
    unfold defaultErrorEvaluator
    rw [hretry]
    rfl
  have hnext : ConstantBackoff.next ⟨r, p, iv⟩ = (⟨r, p - 1, iv⟩, iv) := by
    unfold ConstantBackoff.next
    rw [if_neg (by simp [hp]), if_pos hr]
  have hdelay : Retrier.getDelay (Retrier.defaultCfg t)
      ⟨a, some er, ec, ⟨r, p, iv⟩⟩
      = (⟨a, some er, ec, ⟨r, p - 1, iv⟩⟩, .ok iv) := by
    unfold Retrier.getDelay
    rw [defaultCfg_next, hnext]
    simp [hiv]
  have hT' : ¬(Retrier.istimeout (Retrier.defaultCfg t).timeout start (times i)
      = true) := by
    rw [defaultCfg_timeout, hT]; exact Bool.false_ne_true
  conv_lhs => rw [Retrier.runLoop]
  rw [if_neg hT', hcall]
  dsimp
  rw [hexc]
  simp only [Bool.true_eq_false, if_false]
  rw [hhandle]
  dsimp
  rw [hdelay]
  dsimp
  rw [show Retrier.notifySubscriber (Retrier.defaultCfg t)
      ⟨a, some er, ec, ⟨r, p - 1, iv⟩⟩ iv = none from rfl]

lemma runLoop_retry_phase (t iv : ℚ) (op : ℕ → Except PyErr PyVal)
    (times : ℕ → ℚ) (start : ℚ) (e : ℕ → PyErr) :
    ∀ (k i a ec : ℕ) (err0 : Option PyErr) (r p fuel : ℕ),
    (∀ j < k, Retrier.istimeout t start (times (i + j)) = false) →
    (∀ j < k, op (i + j) = .error (e (i + j))) →
    (∀ j < k, issubclassB (e (i + j)).cls .ExceptionC = true) →
    (∀ j < k, ErrorWhitelist.isretry WHITELIST (some (e (i + j))) = true) →
    k ≤ p → 0 < r → iv ≠ Backoff.STOP →
    Retrier.runLoop (Retrier.defaultCfg t) op times start
        ⟨a, err0, ec, ⟨r, p, iv⟩⟩ i (k + fuel)
      = Retrier.runLoop (Retrier.defaultCfg t) op times start
          ⟨a + k, (if k = 0 then err0 else some (e (i + k - 1))), ec,
            ⟨r, p - k, iv⟩⟩ (i + k) fuel := by
  intro k
  induction k with
  | zero =>
    intro i a ec err0 r p fuel _ _ _ _ _ _ _
    simp
  | succ k ih =>
    intro i a ec err0 r p fuel hT hop hexc hretry hp hr hiv
    have hstep := runLoop_step_retry t iv op times start (e i) a ec r p i
      (k + fuel) err0
      (by simpa using hT 0 (Nat.succ_pos k))
      (by simpa using hop 0 (Nat.succ_pos k))
      (by simpa using hexc 0 (Nat.succ_pos k))
      (by simpa using hretry 0 (Nat.succ_pos k))
      (by omega) hr hiv
    rw [show k + 1 + fuel = (k + fuel) + 1 from by omega, hstep]
    have hrec := ih (i + 1) (a + 1) ec (some (e i)) r (p - 1) fuel
      (fun j hj => by
        have := hT (j + 1) (by omega)
        simpa [Nat.add_assoc, Nat.add_comm 1 j] using this)
      (fun j hj => by
        have := hop (j + 1) (by omega)
        simpa [Nat.add_assoc, Nat.add_comm 1 j] using this)
      (fun j hj => by
        have := hexc (j + 1) (by omega)
        simpa [Nat.add_assoc, Nat.add_comm 1 j] using this)
      (fun j hj => by
        have := hretry (j + 1) (by omega)
        simpa [Nat.add_assoc, Nat.add_comm 1 j] using this)
      (by omega) hr hiv
    rw [hrec]
    have herr : (some (e i) : Option PyErr) = some (e (i + 0)) := by
      rw [Nat.add_zero]
    have herr2 : (if k = 0 then some (e i) else some (e (i + 1 + k - 1)))
        = (if k + 1 = 0 then err0 else some (e (i + (k + 1) - 1))) := by
      rw [if_neg (Nat.succ_ne_zero k)]
      rcases Nat.eq_zero_or_pos k with hk | hk
      · subst hk; simp
      · rw [if_neg (by omega)]
        congr 2
        omega
    rw [herr2]
    rw [show a + 1 + k = a + (k + 1) from by omega]
    rw [show p - 1 - k = p - (k + 1) from by omega]
    rw [show i + 1 + k = i + (k + 1) from by omega]

lemma runLoop_step_success (t : ℚ) (op : ℕ → Except PyErr PyVal)
    (times : ℕ → ℚ) (start : ℚ) (v : PyVal)
    (a ec : ℕ) (err0 : Option PyErr) (b : ConstantBackoff) (i n : ℕ)
    (hT : Retrier.istimeout t start (times i) = false)
    (hop : op i = .ok v) :
    Retrier.runLoop (Retrier.defaultCfg t) op times start
        ⟨a, err0, ec, b⟩ i (n + 1)
      = some (.success v, ⟨a, none, ec, b⟩) := by
  have hcall : Retrier.call (Retrier.defaultCfg t) ⟨a, err0, ec, b⟩ (op i)
      = (⟨a, none, ec, b⟩, .ret v) := by
    rw [hop]; rfl
  have hT' : ¬(Retrier.istimeout (Retrier.defaultCfg t).timeout start (times i)
      = true) := by
    rw [defaultCfg_timeout, hT]; exact Bool.false_ne_true
  conv_lhs => rw [Retrier.runLoop]
  rw [if_neg hT', hcall]

lemma runLoop_step_maxretries (t iv : ℚ) (op : ℕ → Except PyErr PyVal)
    (times : ℕ → ℚ) (start : ℚ) (er : PyErr)
    (a ec r i n : ℕ) (err0 : Option PyErr)
    (hT : Retrier.istimeout t start (times i) = false)
    (hop : op i = .error er)
    (hexc : issubclassB er.cls .ExceptionC = true)
    (hretry : ErrorWhitelist.isretry WHITELIST (some er) = true)
    (hr : 0 < r) :
    Retrier.runLoop (Retrier.defaultCfg t) op times start
        ⟨a, err0, ec, ⟨r, 0, iv⟩⟩ i (n + 1)
      = some (.raised ⟨maxRetriesError, some er⟩,
          ⟨a, some er, ec, ⟨r, 0, iv⟩⟩) := by
  have hcall : Retrier.call (Retrier.defaultCfg t)
      ⟨a, err0, ec, ⟨r, 0, iv⟩⟩ (op i)
      = (⟨a, err0, ec, ⟨r, 0, iv⟩⟩, .exn ⟨er, none⟩) := by
    rw [hop]; rfl
  have hhandle : Retrier.handleError (Retrier.defaultCfg t)
      ⟨a, err0, ec, ⟨r, 0, iv⟩⟩ ⟨er, none⟩
      = (⟨a, some er, ec, ⟨r, 0, iv⟩⟩, none) := by
    unfold Retrier.handleError
    rw [defaultCfg_error_evaluator]
    unfold defaultErrorEvaluator
    rw [hretry]
    rfl
  have hnext : ConstantBackoff.next ⟨r, 0, iv⟩ = (⟨r, 0, iv⟩, Backoff.STOP) := by
    unfold ConstantBackoff.next
    rw [if_pos ⟨hr, rfl⟩]
  have hdelay : Retrier.getDelay (Retrier.defaultCfg t)
      ⟨a, some er, ec, ⟨r, 0, iv⟩⟩
      = (⟨a, some er, ec, ⟨r, 0, iv⟩⟩, .error ⟨maxRetriesError, some er⟩) := by
    unfold Retrier.getDelay
    rw [defaultCfg_next, hnext]
    simp
  have hT' : ¬(Retrier.istimeout (Retrier.defaultCfg t).timeout start (times i)
      = true) := by
    rw [defaultCfg_timeout, hT]; exact Bool.false_ne_true
  conv_lhs => rw [Retrier.runLoop]
  rw [if_neg hT', hcall]
  dsimp
  rw [hexc]
  simp only [Bool.true_eq_false, if_false]
  rw [hhandle]
  dsimp
  rw [hdelay]

lemma runLoop_step_timeout (σ : Type) (cfg : RetrierCfg σ)
    (op : ℕ → Except PyErr PyVal) (times : ℕ → ℚ) (start : ℚ)
    (st : RunState σ) (i n : ℕ)
    (hT : Retrier.istimeout cfg.timeout start (times i) = true) :
    Retrier.runLoop cfg op times start st i (n + 1)
      = some (.raised ⟨retryTimeoutErrorObj, st.error⟩, st) := by
  conv_lhs => rw [Retrier.runLoop]
  rw [if_pos hT]

/-- C1: with no timeout, no result evaluator, the default whitelist
error-evaluator, a `ConstantBackoff(interval=0, retries=r)` with budget
`r > N`, and an operation that raises an `Exception`-derived error the
default whitelist classifies retryable on each of its first `N`
invocations and then returns `v`, `run()` returns `v`, the retrier's
`attempts` equals `N`, and its `error` field is `None`. -/
theorem retrier_run_retries_then_success
    (N r : ℕ) (hNr : N < r) (v : PyVal) (e : ℕ → PyErr)
    (op : ℕ → Except PyErr PyVal) (times : ℕ → ℚ) (start : ℚ)
    (hop : ∀ j < N, op j = .error (e j))
    (hexc : ∀ j < N, issubclassB (e j).cls .ExceptionC = true)
    (hretry : ∀ j < N, ErrorWhitelist.isretry WHITELIST (some (e j)) = true)
    (hsucc : op N = .ok v) :
    Retrier.run (Retrier.defaultCfg 0) (ConstantBackoff.make 0 r) op times
        start (N + 1)
      = some (.success v, ⟨N, none, 0, ⟨r, r - N, 0⟩⟩) := by
  unfold Retrier.run
  rw [show (Retrier.defaultCfg 0).reset (ConstantBackoff.make 0 r)
      = (⟨r, r, 0⟩ : ConstantBackoff) from rfl]
  have hphase := runLoop_retry_phase 0 0 op times start e N 0 0 0 none r r 1
    (fun j _ => by simp [Retrier.istimeout])
    (fun j hj => by simpa using hop j hj)
    (fun j hj => by simpa using hexc j hj)
    (fun j hj => by simpa using hretry j hj)
    (le_of_lt hNr) (by omega)
    (by rw [Backoff.STOP]; norm_num)
  rw [hphase]
  rw [runLoop_step_success 0 op times start v (0 + N) 0
      (if N = 0 then none else some (e (0 + N - 1))) ⟨r, r - N, 0⟩ (0 + N) 0
      (by simp [Retrier.istimeout]) (by simpa using hsucc)]
  simp

/-- Closed witness for `retrier_run_retries_then_success`: the spec's
example scenario — `Constant(interval=0, retries=5)`, an operation
failing with a retryable user error three times then returning `42` —
yields `42` with `attempts = 3` and `error = None`. -/
theorem retrier_run_retries_then_success_witness :
    Retrier.run (Retrier.defaultCfg 0) (ConstantBackoff.make 0 5)
        (fun i => if i < 3 then .error (userErr i) else .ok (.int 42))
        (fun _ => 0) 0 (3 + 1)
      = some (.success (.int 42), ⟨3, none, 0, ⟨5, 5 - 3, 0⟩⟩) :=
  retrier_run_retries_then_success 3 5 (by decide) (.int 42) userErr
    (fun i => if i < 3 then .error (userErr i) else .ok (.int 42))
    (fun _ => 0) 0
    (by decide) (by decide) (by decide) (by decide)

/-- C2: with no timeout, no result evaluator, the default whitelist
error-evaluator and a `ConstantBackoff(retries=K)` with `K > 0`, an
operation that raises a retryable `Exception`-derived error on every
invocation makes `run()` raise `MaxRetriesExceeded` whose `__cause__` is
the last observed operation error (the `K`-th retry's error, the
operation having run `K + 1` times), with the retrier's `attempts` field
equal to `K` at that point. -/
theorem retrier_run_max_retries_exceeded
    (K interval : ℕ) (hK : 0 < K) (e : ℕ → PyErr)
    (op : ℕ → Except PyErr PyVal) (times : ℕ → ℚ) (start : ℚ)
    (hop : ∀ j, j ≤ K → op j = .error (e j))
    (hexc : ∀ j, j ≤ K → issubclassB (e j).cls .ExceptionC = true)
    (hretry : ∀ j, j ≤ K → ErrorWhitelist.isretry WHITELIST (some (e j)) = true) :
    Retrier.run (Retrier.defaultCfg 0) (ConstantBackoff.make interval K) op
        times start (K + 1)
      = some (.raised ⟨maxRetriesError, some (e K)⟩,
          ⟨K, some (e K), 0, ⟨K, 0, (interval : ℚ)⟩⟩) := by
  unfold Retrier.run
  rw [show (Retrier.defaultCfg 0).reset (ConstantBackoff.make interval K)
      = (⟨K, K, (interval : ℚ)⟩ : ConstantBackoff) from rfl]
  have hiv : (interval : ℚ) ≠ Backoff.STOP := by
    rw [Backoff.STOP]
    intro h
    have h0 : (0 : ℚ) ≤ (interval : ℚ) := Nat.cast_nonneg interval
    rw [h] at h0
    norm_num at h0
  have hphase := runLoop_retry_phase 0 (interval : ℚ) op times start e K 0 0 0
    none K K 1
    (fun j _ => by simp [Retrier.istimeout])
    (fun j hj => by simpa using hop j (le_of_lt hj))
    (fun j hj => by simpa using hexc j (le_of_lt hj))
    (fun j hj => by simpa using hretry j (le_of_lt hj))
    (le_refl K) hK hiv
  rw [hphase]
  rw [show K - K = 0 from Nat.sub_self K]
  rw [runLoop_step_maxretries 0 (interval : ℚ) op times start (e (0 + K))
      (0 + K) 0 K (0 + K) 0 (if K = 0 then none else some (e (0 + K - 1)))
      (by simp [Retrier.istimeout])
      (by simpa using hop (0 + K) (by omega))
      (by simpa using hexc (0 + K) (by omega))
      (by simpa using hretry (0 + K) (by omega)) hK]
  simp

/-- Closed witness for `retrier_run_max_retries_exceeded` at `K = 2`,
`interval = 0`, matching the source test
`test_retrier_run_max_retries_error`. -/
theorem retrier_run_max_retries_exceeded_witness :
    Retrier.run (Retrier.defaultCfg 0) (ConstantBackoff.make 0 2)
        (fun i => .error (userErr i)) (fun _ => 0) 0 (2 + 1)
      = some (.raised ⟨maxRetriesError, some (userErr 2)⟩,
          ⟨2, some (userErr 2), 0, ⟨2, 0, ((0 : ℕ) : ℚ)⟩⟩) :=
  retrier_run_max_retries_exceeded 2 0 (by decide) userErr
    (fun i => .error (userErr i)) (fun _ => 0) 0
    (fun _ _ => rfl) (fun _ _ => rfl) (fun _ _ => rfl)

/-- C3 (amended): a run whose configured positive timeout is exceeded
before the operation succeeds terminates early regardless of the
remaining backoff budget, but the two execution modes differ.  The
blocking `Retrier` raises `RetryTimeoutError` carrying the last observed
operation error as chained cause (first conjunct: `k` retryable failures
and then an exceeded deadline at the top of iteration `k`, with `r - k`
budget still unused).  The `AsyncRetrier` instead relies on
`asyncio.wait_for`, which on deadline raises a bare
`asyncio.TimeoutError` — not `RetryTimeoutError` — with no chained cause
(second conjunct). -/
theorem retrier_timeout_amended
    (t : ℚ) (interval r k : ℕ) (e : ℕ → PyErr)
    (op : ℕ → Except PyErr PyVal) (times : ℕ → ℚ) (start : ℚ)
    (hk : 0 < k) (hkr : k ≤ r) (hr : 0 < r)
    (hTf : ∀ j < k, Retrier.istimeout t start (times j) = false)
    (hTt : Retrier.istimeout t start (times k) = true)
    (hop : ∀ j < k, op j = .error (e j))
    (hexc : ∀ j < k, issubclassB (e j).cls .ExceptionC = true)
    (hretry : ∀ j < k, ErrorWhitelist.isretry WHITELIST (some (e j)) = true) :
    (Retrier.run (Retrier.defaultCfg t) (ConstantBackoff.make interval r) op
        times start (k + 1)
      = some (.raised ⟨retryTimeoutErrorObj, some (e (k - 1))⟩,
          ⟨k, some (e (k - 1)), 0, ⟨r, r - k, (interval : ℚ)⟩⟩))
    ∧ ∀ (σ : Type) (cfg : RetrierCfg σ) (b0 : σ)
        (op2 : ℕ → Except PyErr PyVal) (fuel : ℕ),
        AsyncRetrier.runOutcome cfg b0 op2 fuel true
          = some (.raised ⟨asyncioTimeoutErrObj, none⟩) := by
  constructor
  · unfold Retrier.run
    rw [show (Retrier.defaultCfg t).reset (ConstantBackoff.make interval r)
        = (⟨r, r, (interval : ℚ)⟩ : ConstantBackoff) from rfl]
    have hiv : (interval : ℚ) ≠ Backoff.STOP := by
      rw [Backoff.STOP]
      intro h
      have h0 : (0 : ℚ) ≤ (interval : ℚ) := Nat.cast_nonneg interval
      rw [h] at h0
      norm_num at h0
    have hphase := runLoop_retry_phase t (interval : ℚ) op times start e k 0 0 0
      none r r 1
      (fun j hj => by simpa using hTf j hj)
      (fun j hj => by simpa using hop j hj)
      (fun j hj => by simpa using hexc j hj)
      (fun j hj => by simpa using hretry j hj)
      hkr hr hiv
    rw [hphase]
    rw [runLoop_step_timeout ConstantBackoff (Retrier.defaultCfg t) op times
        start ⟨0 + k, (if k = 0 then none else some (e (0 + k - 1))), 0,
          ⟨r, r - k, (interval : ℚ)⟩⟩ (0 + k) 0
        (by rw [defaultCfg_timeout]; simpa using hTt)]
    simp [Nat.pos_iff_ne_zero.mp hk]
  · intro σ cfg b0 op2 fuel
    rfl

/-- Closed witness for `retrier_timeout_amended`: timeout `10`, one
retryable failure at clock `0`, deadline exceeded at clock `100` with
four retries still budgeted. -/
theorem retrier_timeout_amended_witness :
    (Retrier.run (Retrier.defaultCfg 10) (ConstantBackoff.make 0 5)
        (fun i => .error (userErr i))
        (fun i => if i = 0 then 0 else 100) 0 (1 + 1)
      = some (.raised ⟨retryTimeoutErrorObj, some (userErr 0)⟩,
          ⟨1, some (userErr 0), 0, ⟨5, 5 - 1, ((0 : ℕ) : ℚ)⟩⟩))
    ∧ ∀ (σ : Type) (cfg : RetrierCfg σ) (b0 : σ)
        (op2 : ℕ → Except PyErr PyVal) (fuel : ℕ),
        AsyncRetrier.runOutcome cfg b0 op2 fuel true
          = some (.raised ⟨asyncioTimeoutErrObj, none⟩) :=
  retrier_timeout_amended 10 0 5 1 userErr (fun i => .error (userErr i))
    (fun i => if i = 0 then 0 else 100) 0
    (by decide) (by decide) (by decide)
    (fun j hj => by
      have hj0 : j = 0 := by omega
      subst hj0
      norm_num [Retrier.istimeout])
    (by norm_num [Retrier.istimeout])
    (fun _ _ => rfl) (fun _ _ => rfl) (fun _ _ => rfl)

/-- C3 counterexample: in the asynchronous mode, a run whose
`asyncio.wait_for` deadline fires raises `asyncio.TimeoutError` with no
chained cause — not `RetryTimeoutError` as the claim states for both
modes. -/
theorem retrier_timeout_counterexample :
    AsyncRetrier.runOutcome (Retrier.defaultCfg 10)
        (ConstantBackoff.make 100 10) (fun i => .error (userErr i)) 50 true
      = some (.raised ⟨asyncioTimeoutErrObj, none⟩)
    ∧ asyncioTimeoutErrObj.cls = ErrClass.AsyncioTimeoutErrorC
    ∧ ErrClass.AsyncioTimeoutErrorC ≠ ErrClass.RetryTimeoutErrorC :=
  ⟨rfl, rfl, by decide⟩

/-- C4: evaluation of the code at the failing input.  With a result
evaluator that returns the literal `True` on every result, an operation
returning `1`, and `ConstantBackoff(interval=0, retries=2)`, the blocking
engine does not fail fast: `_call` raises
`RetryError('retry evaluator assertion returned True')`, the default
whitelist classifies that error retryable, and the run retries through
the whole backoff budget (evaluator invoked 3 times, `attempts = 2`)
before raising `MaxRetriesExceeded` chaining the misuse `RetryError` —
contradicting both the claim's fail-fast behaviour and the `run()`
docstring's promise that the misuse error surfaces to the caller. -/
theorem evaluator_true_retried_not_failfast :
    Retrier.run
        ⟨0, some (fun _ => .ok (.bool true)), defaultErrorEvaluator WHITELIST,
          none, ConstantBackoff.next, ConstantBackoff.reset⟩
        (ConstantBackoff.make 0 2) (fun _ => .ok (.int 1)) (fun _ => 0) 0 10
      = some (.raised ⟨maxRetriesError, some retryEvalTrueError⟩,
          ⟨2, some retryEvalTrueError, 3, ⟨2, 0, 0⟩⟩) := by decide

lemma exception_not_cancelled (c : ErrClass)
    (h : issubclassB c .ExceptionC = true) :
    issubclassB c .CancelledErrorC = false := by
  cases c <;> simp_all [issubclassB, ErrClass.mro]

/-- C5 (amended): whenever the operation's first invocation raises an
`Exception`-derived error `e` and the configured `error_evaluator`
returns the literal boolean `False` on `e`, both engines immediately
re-raise the original error object unchanged (same object, not wrapped),
with `attempts` still `0` — but only the literal `False` triggers this:
other falsy verdicts (`None`, `0`, `''`) fall through to a retry, see the
counterexample. -/
theorem error_evaluator_false_reraises
    (σ : Type) (cfg : RetrierCfg σ) (b0 : σ) (op : ℕ → Except PyErr PyVal)
    (times : ℕ → ℚ) (start : ℚ) (fuel : ℕ) (e : PyErr)
    (hf : 0 < fuel)
    (hT : Retrier.istimeout cfg.timeout start (times 0) = false)
    (hop : op 0 = .error e)
    (hexc : issubclassB e.cls .ExceptionC = true)
    (hee : cfg.error_evaluator e = .bool false) :
    Retrier.run cfg b0 op times start fuel
      = some (.raised ⟨e, none⟩, ⟨0, some e, 0, cfg.reset b0⟩)
    ∧ AsyncRetrier.runInner cfg b0 op fuel
      = some (.raised ⟨e, none⟩, ⟨0, some e, 0, cfg.reset b0⟩) := by
  obtain ⟨n, rfl⟩ : ∃ n, fuel = n + 1 :=
    ⟨fuel - 1, by omega⟩
  have hT' : ¬(Retrier.istimeout cfg.timeout start (times 0) = true) := by
    rw [hT]; exact Bool.false_ne_true
  have hcall : Retrier.call cfg ⟨0, none, 0, cfg.reset b0⟩ (op 0)
      = (⟨0, none, 0, cfg.reset b0⟩, .exn ⟨e, none⟩) := by
    rw [hop]; rfl
  have hhandle : Retrier.handleError cfg ⟨0, none, 0, cfg.reset b0⟩ ⟨e, none⟩
      = (⟨0, some e, 0, cfg.reset b0⟩, some ⟨e, none⟩) := by
    unfold Retrier.handleError
    rw [hee]
    rfl
  have hcallA : AsyncRetrier.call cfg ⟨0, none, 0, cfg.reset b0⟩ (op 0)
      = (⟨0, none, 0, cfg.reset b0⟩, .exn ⟨e, none⟩) := by
    rw [hop]; rfl
  have hhandleA : AsyncRetrier.handleError cfg ⟨0, none, 0, cfg.reset b0⟩
      ⟨e, none⟩
      = (⟨0, some e, 0, cfg.reset b0⟩, some ⟨e, none⟩) := by
    unfold AsyncRetrier.handleError
    rw [hee]
    rfl
  constructor
  · unfold Retrier.run
    conv_lhs => rw [Retrier.runLoop]
    rw [if_neg hT', hcall]
    dsimp
    rw [hexc]
    simp only [Bool.true_eq_false, if_false]
    rw [hhandle]
  · unfold AsyncRetrier.runInner
    conv_lhs => rw [AsyncRetrier.runLoop]
    rw [hcallA]
    dsimp
    rw [exception_not_cancelled e.cls hexc]
    simp only [Bool.false_eq_true, if_false]
    rw [hexc]
    simp only [if_true]
    rw [hhandleA]

/-- Closed witness for `error_evaluator_false_reraises`: an
`error_evaluator` constantly returning `False` makes the first raised
user error propagate unchanged with `attempts = 0`, in both engines. -/
theorem error_evaluator_false_reraises_witness :
    Retrier.run
        ⟨0, none, (fun _ => .bool false), none,
          ConstantBackoff.next, ConstantBackoff.reset⟩
        (ConstantBackoff.make 0 5) (fun i => .error (userErr i))
        (fun _ => 0) 0 3
      = some (.raised ⟨userErr 0, none⟩,
          ⟨0, some (userErr 0), 0,
            ConstantBackoff.reset (ConstantBackoff.make 0 5)⟩)
    ∧ AsyncRetrier.runInner
        ⟨0, none, (fun _ => .bool false), none,
          ConstantBackoff.next, ConstantBackoff.reset⟩
        (ConstantBackoff.make 0 5) (fun i => .error (userErr i)) 3
      = some (.raised ⟨userErr 0, none⟩,
          ⟨0, some (userErr 0), 0,
            ConstantBackoff.reset (ConstantBackoff.make 0 5)⟩) :=
  error_evaluator_false_reraises ConstantBackoff
    ⟨0, none, (fun _ => .bool false), none,
      ConstantBackoff.next, ConstantBackoff.reset⟩
    (ConstantBackoff.make 0 5) (fun i => .error (userErr i)) (fun _ => 0) 0 3
    (userErr 0) (by decide) (by decide) (by decide) (by decide) (by decide)

/-- C5 counterexample: an `error_evaluator` returning `None` — a falsy
value that is not the literal `False` — does not stop the loop: with
`ConstantBackoff(interval=0, retries=1)` and an always-failing operation,
the engine retries (`attempts = 1`) and terminates with
`MaxRetriesExceeded` instead of immediately re-raising the original
error, refuting the claim for falsy values in general. -/
theorem error_evaluator_falsy_counterexample :
    Retrier.run
        ⟨0, none, (fun _ => PyVal.none), none,
          ConstantBackoff.next, ConstantBackoff.reset⟩
        (ConstantBackoff.make 0 1) (fun i => .error (userErr i))
        (fun _ => 0) 0 10
      = some (.raised ⟨maxRetriesError, some (userErr 1)⟩,
          ⟨1, some (userErr 1), 0, ⟨1, 0, 0⟩⟩)
    ∧ PyVal.truthy PyVal.none = false
    ∧ PyVal.none ≠ PyVal.bool false := by decide

/-- C10: in both engines, when the operation's first invocation returns
`None`, the run succeeds immediately with `None`: the result evaluator is
never invoked (the ghost `evalCalls` counter stays `0`) even when one is
configured, `attempts` is `0` and `error` is `None`. -/
theorem operation_none_skips_evaluator
    (σ : Type) (cfg : RetrierCfg σ) (b0 : σ) (op : ℕ → Except PyErr PyVal)
    (times : ℕ → ℚ) (start : ℚ) (fuel : ℕ)
    (hf : 0 < fuel)
    (hT : Retrier.istimeout cfg.timeout start (times 0) = false)
    (hop : op 0 = .ok .none) :
    Retrier.run cfg b0 op times start fuel
      = some (.success .none, ⟨0, none, 0, cfg.reset b0⟩)
    ∧ AsyncRetrier.runInner cfg b0 op fuel
      = some (.success .none, ⟨0, none, 0, cfg.reset b0⟩) := by
  obtain ⟨n, rfl⟩ : ∃ n, fuel = n + 1 :=
    ⟨fuel - 1, by omega⟩
  have hT' : ¬(Retrier.istimeout cfg.timeout start (times 0) = true) := by
    rw [hT]; exact Bool.false_ne_true
  have hcall : Retrier.call cfg ⟨0, none, 0, cfg.reset b0⟩ (op 0)
      = (⟨0, none, 0, cfg.reset b0⟩, .ret .none) := by
    unfold Retrier.call
    rw [hop]
    rcases cfg.evaluator with _ | ev
    · rfl
    · rfl
  have hcallA : AsyncRetrier.call cfg ⟨0, none, 0, cfg.reset b0⟩ (op 0)
      = (⟨0, none, 0, cfg.reset b0⟩, .ret .none) := by
    unfold AsyncRetrier.call
    rw [hop]
    rcases cfg.evaluator with _ | ev
    · rfl
    · rfl
  constructor
  · unfold Retrier.run
    conv_lhs => rw [Retrier.runLoop]
    rw [if_neg hT', hcall]
  · unfold AsyncRetrier.runInner
    conv_lhs => rw [AsyncRetrier.runLoop]
    rw [hcallA]

/-- Closed witness for `operation_none_skips_evaluator` with a result
evaluator configured (one that would reclassify any value as a
failure): the `None` return bypasses it in both engines. -/
theorem operation_none_skips_evaluator_witness :
    Retrier.run
        ⟨0, some (fun _ => .ok (.bool true)), defaultErrorEvaluator WHITELIST,
          none, ConstantBackoff.next, ConstantBackoff.reset⟩
        (ConstantBackoff.make 0 5) (fun _ => .ok .none) (fun _ => 0) 0 1
      = some (.success .none, ⟨0, none, 0,
          ConstantBackoff.reset (ConstantBackoff.make 0 5)⟩)
    ∧ AsyncRetrier.runInner
        ⟨0, some (fun _ => .ok (.bool true)), defaultErrorEvaluator WHITELIST,
          none, ConstantBackoff.next, ConstantBackoff.reset⟩
        (ConstantBackoff.make 0 5) (fun _ => .ok .none) 1
      = some (.success .none, ⟨0, none, 0,
          ConstantBackoff.reset (ConstantBackoff.make 0 5)⟩) :=
  operation_none_skips_evaluator ConstantBackoff
    ⟨0, some (fun _ => .ok (.bool true)), defaultErrorEvaluator WHITELIST,
      none, ConstantBackoff.next, ConstantBackoff.reset⟩
    (ConstantBackoff.make 0 5) (fun _ => .ok .none) (fun _ => 0) 0 1
    (by decide) (by decide) (by decide)
